import Mathlib

/-!
Shallow embedding of the EPA (Victoria) air-quality Home Assistant integration
(`custom_components/epa_victoria_air_quality`): the HTTP fetcher's retry loop
(`epaapi.py`), the cache store (`EPAApi.__serialise_data`), the observation
extractor (`collector.py`), and the poll coordinator's scheduling and
coalescing logic (`coordinator.py`), together with theorems settling claims
about the accompanying specification.
-/

/-- Scalar Python values as they occur in the integration's data dictionaries.
Composite containers (the `_data` dictionary, the observation dictionary, the
API payload) are modelled structurally by dedicated Lean structures below.
`pyObj` stands for a value that the standard JSON serializer cannot natively
encode and that is not a `datetime` (an arbitrary foreign object, identified by
a tag). Instants (`datetime` values) are modelled as epoch seconds. -/
inductive PyVal where
  | pyNone
  | pyBool (b : Bool)
  | pyInt (n : ℤ)
  | pyFloat (q : ℚ)
  | pyStr (s : String)
  | pyDatetime (t : ℤ)
  | pyObj (tag : String)
  deriving Repr, DecidableEq

/-- JSON scalar values produced by `json.dumps`. A serialised cache document is
a JSON object, modelled as an association list `List (String × JVal)`. -/
inductive JVal where
  | null
  | jbool (b : Bool)
  | jnum (q : ℚ)
  | jstr (s : String)
  deriving Repr, DecidableEq

/-- Abstraction of `datetime.isoformat()`: renders an instant (epoch seconds)
as a string. The exact ISO-8601 text is irrelevant to every claim, so the
rendering is kept abstract but executable and injective. -/
def isoformat (t : ℤ) : String := "1970-01-01T00:00:00+00:00/" ++ toString t

/-- `DateTimeEncoder` (epaapi.py): `json.dumps(..., cls=DateTimeEncoder)`
encodes a `datetime` via `isoformat`, encodes natively serialisable values
natively, and for any other value calls the overridden
`DateTimeEncoder.default`, which returns `None` (serialised as JSON `null`)
where the stock encoder would raise `TypeError`. -/
def DateTimeEncoder.encode : PyVal → JVal
  | .pyNone => .null
  | .pyBool b => .jbool b
  | .pyInt n => .jnum (n : ℚ)
  | .pyFloat q => .jnum q
  | .pyStr s => .jstr s
  | .pyDatetime t => .jstr (isoformat t)
  | .pyObj _ => .null

/-- The guard `data['last_updated'] == dt.fromtimestamp(0, timezone.utc)` in
`EPAApi.__serialise_data`. Python's `==` between a `datetime` and a value of
any other type is `False`. -/
def isEpochZero : PyVal → Bool
  | .pyDatetime t => t == 0
  | _ => false

/-- The `version` stamp `JSON_VERSION` from epaapi.py. -/
def JSON_VERSION : ℤ := 1

/-- The `EPAApi._data` dictionary (epaapi.py `__init__`): the per-site AQI
history stored under `'site'` (kept abstract as a single Python value — no
claim inspects its inner structure), the `last_updated` and `last_attempt`
stamps, the `auto_updated` flag and the schema `version`. -/
structure EpaData where
  site : PyVal
  last_updated : PyVal
  last_attempt : PyVal
  auto_updated : Bool
  version : ℤ
  deriving Repr, DecidableEq

/-- `json.dumps(data, ensure_ascii=False, cls=DateTimeEncoder)` applied to the
`_data` dictionary: each value is encoded by `DateTimeEncoder.encode`
(`auto_updated` and `version` are natively serialisable). -/
def dataToJson (d : EpaData) : List (String × JVal) :=
  [("site", DateTimeEncoder.encode d.site),
   ("last_updated", DateTimeEncoder.encode d.last_updated),
   ("last_attempt", DateTimeEncoder.encode d.last_attempt),
   ("auto_updated", .jbool d.auto_updated),
   ("version", .jnum (d.version : ℚ))]

/-- `EPAApi.__serialise_data` (epaapi.py): refuse to save while `_loaded_data`
is unset; refuse to save when `last_updated` is the epoch-zero sentinel;
otherwise serialise the whole document in memory and write it in one step
(under the serialisation lock). The cache file is modelled as
`Option (List (String × JVal))` (`none` = no file yet). -/
def serialise_data (loaded_data : Bool) (data : EpaData)
    (file : Option (List (String × JVal))) :
    Bool × Option (List (String × JVal)) :=
  if loaded_data = false then (false, file)
  else if isEpochZero data.last_updated then (false, file)
  else (true, some (dataToJson data))

/-- Outcome of the retry loop in `EPAApi.__fetch_data`: the final HTTP status
(`999` once all retries are exhausted), the number of GET calls issued, and the
back-off delays slept between consecutive calls, in order. -/
structure FetchOutcome where
  status : ℕ
  calls : ℕ
  delays : List ℕ
  deriving Repr, DecidableEq

/-- The retry loop of `EPAApi.__fetch_data` (epaapi.py). `resp n` is the HTTP
status returned by the `n`-th GET call (1-indexed) and `jitter n` is the value
drawn by `random.randrange(0, 15)` after that call; `tries` is the retry cap
(10) and `counter` the number of calls already made. The loop exits on any
non-429 status, and on 429 once `counter` reaches `tries`; otherwise it sleeps
`counter * 15 + jitter counter` seconds and retries. `fuel` makes the
`while True` loop structurally recursive; it never expires on a path reachable
from `fetch_data` below because the loop can only continue while
`counter < tries`. -/
def fetch_loop (resp jitter : ℕ → ℕ) (tries : ℕ) : ℕ → ℕ → FetchOutcome
  | counter, 0 => ⟨999, counter, []⟩
  | counter, fuel + 1 =>
    let c := counter + 1
    let s := resp c
    if s = 200 then ⟨200, c, []⟩
    else if s = 429 then
      if tries ≤ c then ⟨999, c, []⟩
      else
        let d := c * 15 + jitter c
        let r := fetch_loop resp jitter tries c fuel
        ⟨r.status, r.calls, d :: r.delays⟩
    else ⟨s, c, []⟩

/-- `EPAApi.__fetch_data`: up to `tries = 10` GET calls with linear jittered
back-off on HTTP 429 (`tries`, `counter` and `backoff = 15` as in the code). -/
def fetch_data (resp jitter : ℕ → ℕ) : FetchOutcome :=
  fetch_loop resp jitter 10 0 10

/-- After its loop, `__fetch_data` returns the parsed JSON body when the final
status is 200 and `None` otherwise (the body itself is irrelevant here). -/
def fetch_data_result (resp jitter : ℕ → ℕ) : Option Unit :=
  if (fetch_data resp jitter).status = 200 then some () else none

theorem fetch_loop_retry_step (resp jitter : ℕ → ℕ) (tries counter fuel : ℕ)
    (h : resp (counter + 1) = 429) (hcap : ¬ tries ≤ counter + 1) :
    fetch_loop resp jitter tries counter (fuel + 1) =
      ⟨(fetch_loop resp jitter tries (counter + 1) fuel).status,
       (fetch_loop resp jitter tries (counter + 1) fuel).calls,
       ((counter + 1) * 15 + jitter (counter + 1)) ::
         (fetch_loop resp jitter tries (counter + 1) fuel).delays⟩ := by
  simp [fetch_loop, h, hcap]

theorem delays_shift (jitter : ℕ → ℕ) (counter f : ℕ) :
    ((counter + 1) * 15 + jitter (counter + 1)) ::
      (List.range f).map (fun i => (counter + 1 + i + 1) * 15 + jitter (counter + 1 + i + 1)) =
    (List.range (f + 1)).map (fun i => (counter + i + 1) * 15 + jitter (counter + i + 1)) := by
  rw [List.range_succ_eq_map]
  simp only [List.map_cons, List.map_map, List.cons.injEq]
  refine ⟨by simp, ?_⟩
  apply List.map_congr_left
  intro i _
  have h1 : counter + 1 + i + 1 = counter + (i + 1) + 1 := by omega
  simp only [Function.comp_apply, Nat.succ_eq_add_one]
  rw [h1]

theorem fetch_loop_all_429 (resp jitter : ℕ → ℕ) (tries : ℕ)
    (hresp : ∀ i, resp i = 429) :
    ∀ fuel counter, counter + fuel = tries → 0 < fuel →
      fetch_loop resp jitter tries counter fuel =
        ⟨999, tries,
         (List.range (fuel - 1)).map
           (fun i => (counter + i + 1) * 15 + jitter (counter + i + 1))⟩ := by
  intro fuel
  induction fuel with
  | zero => intro counter _ h0; omega
  | succ fuel ih =>
    intro counter hsum _
    rcases Nat.eq_zero_or_pos fuel with hf | hf
    · subst hf
      have hc : tries ≤ counter + 1 := by omega
      simp [fetch_loop, hresp, hc]
      omega
    · have hc : ¬ tries ≤ counter + 1 := by omega
      have hrec := ih (counter + 1) (by omega) hf
      rw [fetch_loop_retry_step resp jitter tries counter fuel (hresp _) hc, hrec]
      obtain ⟨f, rfl⟩ : ∃ f, fuel = f + 1 := ⟨fuel - 1, by omega⟩
      rw [FetchOutcome.mk.injEq, Nat.add_sub_cancel]
      exact ⟨rfl, rfl, delays_shift jitter counter f⟩

/-- Claim C2: if every HTTP GET returns status 429, `__fetch_data` fails
(returns `None`) after exactly 10 GET calls, the maximum retry count `tries`
hard-wired in the code. -/
theorem fetch_fails_after_ten_attempts (jitter : ℕ → ℕ) :
    fetch_data_result (fun _ => 429) jitter = none ∧
    (fetch_data (fun _ => 429) jitter).calls = 10 := by
  have h := fetch_loop_all_429 (fun _ => 429) jitter 10 (fun _ => rfl) 10 0
    (by omega) (by omega)
  constructor
  · simp [fetch_data_result, fetch_data, h]
  · simp [fetch_data, h]

theorem fetch_loop_429_then_200 (resp jitter : ℕ → ℕ) (tries : ℕ) :
    ∀ n counter fuel,
      (∀ i, counter < i → i ≤ counter + n → resp i = 429) →
      resp (counter + n + 1) = 200 →
      counter + n < tries → n < fuel →
      fetch_loop resp jitter tries counter fuel =
        ⟨200, counter + n + 1,
         (List.range n).map
           (fun i => (counter + i + 1) * 15 + jitter (counter + i + 1))⟩ := by
  intro n
  induction n with
  | zero =>
    intro counter fuel _ h200 _ hfuel
    obtain ⟨f, rfl⟩ : ∃ f, fuel = f + 1 := ⟨fuel - 1, by omega⟩
    have h200' : resp (counter + 1) = 200 := by simpa using h200
    simp [fetch_loop, h200']
  | succ n ih =>
    intro counter fuel h429 h200 hlt hfuel
    obtain ⟨f, rfl⟩ : ∃ f, fuel = f + 1 := ⟨fuel - 1, by omega⟩
    have hc429 : resp (counter + 1) = 429 := h429 (counter + 1) (by omega) (by omega)
    have hcap : ¬ tries ≤ counter + 1 := by omega
    have hrec := ih (counter + 1) f
      (fun i h1 h2 => h429 i (by omega) (by omega))
      (by have h : counter + 1 + n + 1 = counter + (n + 1) + 1 := by omega
          rw [h]; exact h200)
      (by omega) (by omega)
    rw [fetch_loop_retry_step resp jitter tries counter f hc429 hcap, hrec]
    rw [FetchOutcome.mk.injEq]
    refine ⟨rfl, ?_, delays_shift jitter counter n⟩
    show counter + 1 + n + 1 = counter + (n + 1) + 1
    omega

/-- Claim C3: for every `k` strictly below the retry cap 10, if the endpoint
returns 429 exactly `k` times and then 200, `__fetch_data` succeeds, makes
exactly `k + 1` GET calls, and before the `i`-th retry sleeps
`i * 15 + jitter i` seconds, where `i` is the retry count so far and `jitter i`
is the draw of `random.randrange(0, 15)`. -/
theorem fetch_succeeds_after_k_429s (resp jitter : ℕ → ℕ) (k : ℕ)
    (hk : k < 10)
    (h429 : ∀ i, 1 ≤ i → i ≤ k → resp i = 429)
    (h200 : resp (k + 1) = 200) :
    fetch_data_result resp jitter = some () ∧
    (fetch_data resp jitter).calls = k + 1 ∧
    (fetch_data resp jitter).delays =
      (List.range k).map (fun i => (i + 1) * 15 + jitter (i + 1)) := by
  have h := fetch_loop_429_then_200 resp jitter 10 k 0 10
    (fun i h1 h2 => h429 i (by omega) (by omega))
    (by simpa using h200) (by omega) (by omega)
  have h' : fetch_data resp jitter =
      ⟨200, k + 1, (List.range k).map (fun i => (i + 1) * 15 + jitter (i + 1))⟩ := by
    rw [fetch_data, h]
    simp
  refine ⟨by simp [fetch_data_result, h'], by simp [h'], by simp [h']⟩

theorem fetch_succeeds_after_k_429s_witness :
    fetch_data_result (fun i => if i ≤ 2 then 429 else 200) (fun _ => 7) = some () ∧
    (fetch_data (fun i => if i ≤ 2 then 429 else 200) (fun _ => 7)).calls = 3 ∧
    (fetch_data (fun i => if i ≤ 2 then 429 else 200) (fun _ => 7)).delays = [22, 37] := by
  have h := fetch_succeeds_after_k_429s (fun i => if i ≤ 2 then 429 else 200)
    (fun _ => 7) 2 (by omega)
    (fun i h1 h2 => by simp; omega)
    (by norm_num)
  exact ⟨h.1, h.2.1, by rw [h.2.2]; rfl⟩

/-- Claim C4: `__serialise_data` given a record whose `last_updated` is the
epoch-zero sentinel returns failure and leaves the cache file unchanged,
whatever the `_loaded_data` flag and the file's prior contents. -/
theorem serialise_data_epoch_zero_is_noop (loaded : Bool) (data : EpaData)
    (file : Option (List (String × JVal)))
    (h : data.last_updated = .pyDatetime 0) :
    serialise_data loaded data file = (false, file) := by
  cases loaded <;> simp [serialise_data, isEpochZero, h]

theorem serialise_data_epoch_zero_is_noop_witness :
    serialise_data true ⟨.pyStr "hist", .pyDatetime 0, .pyDatetime 4, false, 1⟩
      (some [("k", .jnum 3)]) = (false, some [("k", .jnum 3)]) :=
  serialise_data_epoch_zero_is_noop true _ _ rfl

/-- Claim C10: the cache-save JSON encoder maps every value that is neither a
`datetime` nor natively JSON-serialisable to `null` instead of raising, so a
save of a record containing such a value (here in its `site` slot) succeeds and
silently writes `null` in that value's place. -/
theorem datetime_encoder_writes_null_for_foreign (tag : String) (d : EpaData)
    (t : ℤ) (file : Option (List (String × JVal)))
    (hsite : d.site = .pyObj tag)
    (hlu : d.last_updated = .pyDatetime t) (ht : t ≠ 0) :
    DateTimeEncoder.encode d.site = .null ∧
    serialise_data true d file =
      (true, some [("site", JVal.null),
                   ("last_updated", .jstr (isoformat t)),
                   ("last_attempt", DateTimeEncoder.encode d.last_attempt),
                   ("auto_updated", .jbool d.auto_updated),
                   ("version", .jnum (d.version : ℚ))]) := by
  obtain ⟨site, lu, la, au, ver⟩ := d
  simp only at hsite hlu
  subst hsite hlu
  refine ⟨rfl, ?_⟩
  simp [serialise_data, isEpochZero, ht, dataToJson, DateTimeEncoder.encode]

theorem datetime_encoder_writes_null_for_foreign_witness :
    DateTimeEncoder.encode (PyVal.pyObj "socket") = .null ∧
    serialise_data true ⟨.pyObj "socket", .pyDatetime 5, .pyStr "a", true, 1⟩ none =
      (true, some [("site", JVal.null),
                   ("last_updated", .jstr (isoformat 5)),
                   ("last_attempt", .jstr "a"),
                   ("auto_updated", .jbool true),
                   ("version", .jnum 1)]) := by
  have h := datetime_encoder_writes_null_for_foreign "socket"
    ⟨.pyObj "socket", .pyDatetime 5, .pyStr "a", true, 1⟩ 5 none rfl rfl (by decide)
  simpa using h

/-- One window of `get_intervals` inside
`EPAVicUpdateCoordinator.__calculate_quality_updates` (coordinator.py):
`divisions = int(48)`,
`interval = int((sunset - sunrise).total_seconds() / divisions)`, the grid
`sunrise + timedelta(seconds=interval) * i` for `i in range(0, divisions)`, and
the comprehension keeping only instants strictly after `now`. Instants are
modelled as epoch seconds. -/
def get_intervals (sunrise sunset now : ℤ) : List ℤ :=
  let seconds : ℤ := sunset - sunrise
  let interval : ℤ := seconds / 48
  ((List.range 48).map (fun i : ℕ => sunrise + interval * (i : ℤ))).filter
    (fun t => decide (now < t))

/-- `EPAVicUpdateCoordinator.__auto_update_setup` feeding
`__calculate_quality_updates`: `_sunrise` is local midnight as a UTC instant,
`_sunset = _sunrise + timedelta(hours=24)` (86400 s), tomorrow's window starts
at `_sunset`; the recomputed queue `_intervals` is today's filtered grid
followed by tomorrow's. -/
def calculate_quality_updates (sunrise now : ℤ) : List ℤ :=
  get_intervals sunrise (sunrise + 86400) now ++
  get_intervals (sunrise + 86400) (sunrise + 86400 + 86400) now

theorem pairwise_grid (base : ℤ) :
    List.Pairwise (· < ·) ((List.range 48).map (fun i : ℕ => base + 1800 * (i : ℤ))) := by
  refine List.Pairwise.map _ ?_ (List.pairwise_lt_range 48)
  intro a b hab
  have h : (a : ℤ) < b := by exact_mod_cast hab
  linarith

/-- Claim C7: whenever the schedule queue is recomputed it equals the two
midnight-aligned 24-hour windows, each divided evenly into 48 steps of 1800
seconds, filtered down to instants strictly after `now`; the queue is sorted
strictly ascending, and every entry lies strictly in the future. -/
theorem calculate_quality_updates_spec (sunrise now : ℤ) :
    calculate_quality_updates sunrise now =
      (((List.range 48).map (fun i : ℕ => sunrise + 1800 * (i : ℤ)) ++
        (List.range 48).map (fun i : ℕ => sunrise + 86400 + 1800 * (i : ℤ))).filter
          (fun t => decide (now < t))) ∧
    List.Pairwise (· < ·) (calculate_quality_updates sunrise now) ∧
    ∀ t ∈ calculate_quality_updates sunrise now, now < t := by
  have hdiv : (86400 : ℤ) / 48 = 1800 := by norm_num
  have hwin1 : get_intervals sunrise (sunrise + 86400) now =
      ((List.range 48).map (fun i : ℕ => sunrise + 1800 * (i : ℤ))).filter
        (fun t => decide (now < t)) := by
    simp only [get_intervals, add_sub_cancel_left, hdiv]
  have hwin2 : get_intervals (sunrise + 86400) (sunrise + 86400 + 86400) now =
      ((List.range 48).map (fun i : ℕ => sunrise + 86400 + 1800 * (i : ℤ))).filter
        (fun t => decide (now < t)) := by
    simp only [get_intervals, add_sub_cancel_left, hdiv]
  have hgrid : calculate_quality_updates sunrise now =
      (((List.range 48).map (fun i : ℕ => sunrise + 1800 * (i : ℤ)) ++
        (List.range 48).map (fun i : ℕ => sunrise + 86400 + 1800 * (i : ℤ))).filter
          (fun t => decide (now < t))) := by
    rw [calculate_quality_updates, hwin1, hwin2, List.filter_append]
  have hpw : List.Pairwise (fun a b : ℤ => a < b)
      ((List.range 48).map (fun i : ℕ => sunrise + 1800 * (i : ℤ)) ++
       (List.range 48).map (fun i : ℕ => sunrise + 86400 + 1800 * (i : ℤ))) := by
    rw [List.pairwise_append]
    refine ⟨pairwise_grid sunrise, pairwise_grid (sunrise + 86400), ?_⟩
    intro a ha b hb
    obtain ⟨i, hi, rfl⟩ := List.mem_map.mp ha
    obtain ⟨j, hj, rfl⟩ := List.mem_map.mp hb
    have hiN : i < 48 := List.mem_range.mp hi
    have hi48 : (i : ℤ) < 48 := by exact_mod_cast hiN
    have h1 : 1800 * (i : ℤ) < 1800 * 48 :=
      mul_lt_mul_of_pos_left hi48 (by norm_num)
    have h2 : (0 : ℤ) ≤ 1800 * (j : ℤ) := by positivity
    linarith
  refine ⟨hgrid, ?_, ?_⟩
  · rw [hgrid]
    exact hpw.sublist (List.filter_sublist _)
  · intro t ht
    rw [hgrid] at ht
    have h := List.of_mem_filter ht
    simpa using h

/-- The coordinator state relevant to fetch triggering
(`EPAVicUpdateCoordinator`): the schedule queue `_intervals`, whether a
deferred `'pending_update'` task is armed in `tasks`, how many
quality-update task bodies have been started, and how many HTTP fetch cycles
have actually begun. In this revision no task body can reach an HTTP fetch:
every `__quality_update` passes the keyword arguments `do_past`, `force` and
`next_update` to `EPAApi.get_quality_update`, which accepts none of them, so
Python raises `TypeError` at the call (coordinator.py line 182) before any
fetch. -/
structure CoordState where
  intervals : List ℤ
  pendingUpdate : Bool
  qualityTasks : ℕ
  httpCalls : ℕ
  deriving Repr, DecidableEq

/-- `EPAVicUpdateCoordinator.__check_quality_fetch` (coordinator.py): runs
every five minutes; when the queue head lies inside the current five-minute
window (`_from <= _intervals[0] <= _from + 299s`) and no `'pending_update'`
task exists, it arms a single deferred fetch task; when one is already armed
it returns without changing anything. -/
def check_quality_fetch (now : ℤ) (s : CoordState) : CoordState :=
  match s.intervals with
  | [] => s
  | head :: _ =>
    let window_start := (now / 300) * 300
    if window_start ≤ head ∧ head ≤ window_start + 299 then
      if s.pendingUpdate then s
      else { s with pendingUpdate := true }
    else s

/-- The body of the armed `wait_for_fetch` task in `__check_quality_fetch`
firing uncancelled: it pops the queue head and awaits `__quality_update`,
which raises `TypeError` at its `get_quality_update(do_past=..., force=...,
next_update=...)` call (the shipped `get_quality_update` takes no arguments)
before any HTTP call; the `finally` clause removes the `'pending_update'`
entry and the exception escapes into the task. So the task body runs
(`qualityTasks` grows) but `httpCalls` does not. -/
def fire_pending_update (s : CoordState) : CoordState :=
  if s.pendingUpdate then
    { intervals := s.intervals.drop 1, pendingUpdate := false,
      qualityTasks := s.qualityTasks + 1, httpCalls := s.httpCalls }
  else s

/-- `EPAVicUpdateCoordinator.service_event_update` (coordinator.py): a manual
refresh request immediately creates a fresh `quality_update` task without
checking `tasks` for any pending fetch; that task body dies of the same
`TypeError` before reaching an HTTP call. -/
def service_event_update (s : CoordState) : CoordState :=
  { s with qualityTasks := s.qualityTasks + 1 }

/-- Claim C8 is false on the code: for a pending scheduled fetch coalesced
with a manual refresh, the claimed "exactly one HTTP call" never happens —
both task bodies raise `TypeError` at the `get_quality_update(...)` call
before fetching, so the coalesced triggers produce zero HTTP calls, not one. -/
theorem coalesced_triggers_make_no_http_call :
    ¬ ((fire_pending_update
          (service_event_update ⟨[1500], true, 0, 0⟩)).httpCalls = 1) := by
  decide

/-- Claim C8 amended: while a deferred fetch task is pending, a further
scheduled check leaves the coordinator state unchanged (no second task is
armed, so the scheduler keeps at most one deferred task); a manual refresh
request, by contrast, always creates an additional quality-update task; and
no trigger of either kind results in an HTTP call — every task body raises
`TypeError` at coordinator.py line 182 before fetching, so the coalesced
triggers produce zero HTTP calls rather than exactly one. -/
theorem pending_fetch_coalescing (now : ℤ) (s : CoordState)
    (h : s.pendingUpdate = true) :
    check_quality_fetch now s = s ∧
    (service_event_update s).qualityTasks = s.qualityTasks + 1 ∧
    (service_event_update s).httpCalls = s.httpCalls ∧
    (fire_pending_update s).httpCalls = s.httpCalls := by
  refine ⟨?_, rfl, rfl, ?_⟩
  · unfold check_quality_fetch
    cases hi : s.intervals with
    | nil => rfl
    | cons head tail => simp [h]
  · simp [fire_pending_update, h]

theorem pending_fetch_coalescing_witness :
    check_quality_fetch 0 ⟨[100], true, 0, 0⟩ = ⟨[100], true, 0, 0⟩ ∧
    (service_event_update ⟨[100], true, 0, 0⟩).qualityTasks = 1 ∧
    (service_event_update ⟨[100], true, 0, 0⟩).httpCalls = 0 ∧
    (fire_pending_update ⟨[100], true, 0, 0⟩).httpCalls = 0 :=
  pending_fetch_coalescing 0 ⟨[100], true, 0, 0⟩ rfl

/-- One time-series reading as consumed by `Collector.extract_observation_data`
(collector.py): the first element of the entry's `readings` array, with the
`confidence`, `totalSample`, `healthAdvice`, `averageValue` and `until` keys.
`until` is spelled `until_` because `until` is a Lean keyword. -/
structure Reading where
  confidence : ℚ
  totalSample : ℚ
  healthAdvice : String
  averageValue : ℚ
  until_ : String
  deriving Repr, DecidableEq

/-- One element of `timeSeriesReadings`: its `timeSeriesName` tag and its
first reading (`time_series_reading[READINGS][0]`). -/
structure TimeSeriesEntry where
  timeSeriesName : String
  reading : Reading
  deriving Repr, DecidableEq

/-- The first element of the payload's `parameters` array, as accessed by
`extract_observation_data` via `self.observations_data[PARAMETERS][0]`:
its `timeSeriesReadings` key, when present. -/
structure EpaParameter where
  timeSeriesReadings : Option (List TimeSeriesEntry)
  deriving Repr, DecidableEq

/-- The raw payload held in `self.observations_data`: `parameters` is `none`
when the `parameters` key is absent, and otherwise carries the first
parameter block. -/
structure ObservationsData where
  parameters : Option EpaParameter
  deriving Repr, DecidableEq

/-- The `Collector` state (collector.py `__init__`). Numeric sensor fields are
rationals (Python floats undergo no arithmetic on the modelled paths, only
copies and comparisons), `last_updated` is an instant, and `observation_data`
is the derived per-sensor dictionary. The source annotates `aqi_pm25_24h`
without assigning it; it is modelled as `""` like the other advice fields.
`locations_data` and `headers` are omitted: no modelled operation reads them. -/
structure Collector where
  observation_data : List (String × PyVal)
  latitude : ℚ
  longitude : ℚ
  api_key : String
  version_string : String
  until_ : String
  site_id : String
  aqi : ℚ
  aqi_24h : ℚ
  aqi_pm25 : String
  aqi_pm25_24h : String
  confidence : ℚ
  confidence_24h : ℚ
  data_source_1h : String
  pm25 : ℚ
  pm25_24h : ℚ
  total_sample : ℚ
  total_sample_24h : ℚ
  last_updated : ℤ
  site_found : Bool
  deriving Repr, DecidableEq

/-- `Collector.__init__`: zero/empty bootstrap values; when a non-empty
`epa_site_id` is passed, it is adopted and `site_found` is set. -/
def init_collector (api_key version_string epa_site_id : String)
    (latitude longitude : ℚ) : Collector :=
  { observation_data := [], latitude := latitude, longitude := longitude,
    api_key := api_key, version_string := version_string, until_ := "",
    site_id := if epa_site_id ≠ "" then epa_site_id else "",
    aqi := 0, aqi_24h := 0, aqi_pm25 := "", aqi_pm25_24h := "",
    confidence := 0, confidence_24h := 0, data_source_1h := "",
    pm25 := 0, pm25_24h := 0, total_sample := 0, total_sample_24h := 0,
    last_updated := 0,
    site_found := epa_site_id != "" }

/-- `Collector.get_location`: the site GUID, or `""` without a site. -/
def Collector.get_location (c : Collector) : PyVal :=
  if c.site_found then .pyStr c.site_id else .pyStr ""

/-- `Collector.get_aqi`: the stored float, or the integer literal `0`. -/
def Collector.get_aqi (c : Collector) : PyVal :=
  if c.site_found then .pyFloat c.aqi else .pyInt 0

/-- `Collector.get_aqi_24h`. -/
def Collector.get_aqi_24h (c : Collector) : PyVal :=
  if c.site_found then .pyFloat c.aqi_24h else .pyInt 0

/-- `Collector.get_aqi_pm25`. -/
def Collector.get_aqi_pm25 (c : Collector) : PyVal :=
  if c.site_found then .pyStr c.aqi_pm25 else .pyStr ""

/-- `Collector.get_aqi_pm25_24h`. -/
def Collector.get_aqi_pm25_24h (c : Collector) : PyVal :=
  if c.site_found then .pyStr c.aqi_pm25_24h else .pyStr ""

/-- `Collector.get_confidence`. -/
def Collector.get_confidence (c : Collector) : PyVal :=
  if c.site_found then .pyFloat c.confidence else .pyInt 0

/-- `Collector.get_confidence_24h`. -/
def Collector.get_confidence_24h (c : Collector) : PyVal :=
  if c.site_found then .pyFloat c.confidence_24h else .pyInt 0

/-- `Collector.get_data_source`. -/
def Collector.get_data_source (c : Collector) : PyVal :=
  if c.site_found then .pyStr c.data_source_1h else .pyStr ""

/-- `Collector.get_pm25`. -/
def Collector.get_pm25 (c : Collector) : PyVal :=
  if c.site_found then .pyFloat c.pm25 else .pyInt 0

/-- `Collector.get_pm25_24h`. -/
def Collector.get_pm25_24h (c : Collector) : PyVal :=
  if c.site_found then .pyFloat c.pm25_24h else .pyInt 0

/-- `Collector.get_total_sample`. -/
def Collector.get_total_sample (c : Collector) : PyVal :=
  if c.site_found then .pyFloat c.total_sample else .pyInt 0

/-- `Collector.get_total_sample_24h`. -/
def Collector.get_total_sample_24h (c : Collector) : PyVal :=
  if c.site_found then .pyFloat c.total_sample_24h else .pyInt 0

/-- `Collector.get_until`: with a site, the stored string; without one, the
source returns the integer literal `0` despite the declared `str` type. -/
def Collector.get_until (c : Collector) : PyVal :=
  if c.site_found then .pyStr c.until_ else .pyInt 0

/-- `Collector.get_sensor`: `observation_data.get(key)` (which yields `None`
for a missing key — `dict.get` never raises, so the `except KeyError` arm is
dead), or `None` without a site. -/
def Collector.get_sensor (c : Collector) (key : String) : PyVal :=
  if c.site_found then
    match c.observation_data.lookup key with
    | some v => v
    | none => .pyNone
  else .pyNone

/-- Claim C9: with no monitoring site resolved (`site_found` false), every
public getter returns its fixed sentinel — integer `0` for the numeric
getters, `""` for the string getters, the integer `0` (not a string) for
`get_until`, and `None` for `get_sensor` — regardless of the stored fields. -/
theorem getters_sentinels_when_no_site (c : Collector) (key : String)
    (h : c.site_found = false) :
    c.get_aqi = .pyInt 0 ∧ c.get_aqi_24h = .pyInt 0 ∧
    c.get_aqi_pm25 = .pyStr "" ∧ c.get_aqi_pm25_24h = .pyStr "" ∧
    c.get_confidence = .pyInt 0 ∧ c.get_confidence_24h = .pyInt 0 ∧
    c.get_data_source = .pyStr "" ∧ c.get_pm25 = .pyInt 0 ∧
    c.get_pm25_24h = .pyInt 0 ∧ c.get_total_sample = .pyInt 0 ∧
    c.get_total_sample_24h = .pyInt 0 ∧ c.get_location = .pyStr "" ∧
    c.get_until = .pyInt 0 ∧ c.get_sensor key = .pyNone := by
  simp [Collector.get_aqi, Collector.get_aqi_24h, Collector.get_aqi_pm25,
    Collector.get_aqi_pm25_24h, Collector.get_confidence,
    Collector.get_confidence_24h, Collector.get_data_source,
    Collector.get_pm25, Collector.get_pm25_24h, Collector.get_total_sample,
    Collector.get_total_sample_24h, Collector.get_location,
    Collector.get_until, Collector.get_sensor, h]

/-- A collector with no resolved site but junk stored in every field. -/
def collector_no_site_example : Collector :=
  { init_collector "key" "1.0" "" 3 4 with
    aqi := 7, aqi_24h := 9, aqi_pm25 := "Good", aqi_pm25_24h := "Poor",
    confidence := 1, confidence_24h := 1, data_source_1h := "1HR_AV",
    pm25 := 5, pm25_24h := 6, total_sample := 12, total_sample_24h := 24,
    until_ := "2024-06-01T10:00:00Z", site_id := "ghost",
    observation_data := [("aqi", .pyFloat 7)] }

theorem getters_sentinels_when_no_site_witness :
    collector_no_site_example.site_found = false ∧
    collector_no_site_example.get_aqi = .pyInt 0 ∧
    collector_no_site_example.get_until = .pyInt 0 ∧
    collector_no_site_example.get_sensor "aqi" = .pyNone :=
  have h := getters_sentinels_when_no_site collector_no_site_example "aqi" rfl
  ⟨rfl, h.1, h.2.2.2.2.2.2.2.2.2.2.2.2.1, h.2.2.2.2.2.2.2.2.2.2.2.2.2⟩

/-- One iteration of the `for time_series_reading in time_series_readings`
loop in `Collector.extract_observation_data` (collector.py). A `1HR_AV` entry
stores confidence and sample count, copies advice/value/AQI only when both are
positive, and always refreshes `until`; a `24HR_AV` entry stores the 24-hour
fields and, when the hourly confidence and sample count are both zero while its
own are positive, substitutes the 24-hour values into the hourly fields. The
external `aqi.to_aqi([(aqi.POLLUTANT_PM25, v)])` library call is the `toAqi`
parameter. -/
def extract_step (toAqi : ℚ → ℚ) (c : Collector) (e : TimeSeriesEntry) : Collector :=
  if e.timeSeriesName = "1HR_AV" then
    let c1 := { c with confidence := e.reading.confidence,
                       total_sample := e.reading.totalSample }
    let c2 :=
      if 0 < c1.confidence ∧ 0 < c1.total_sample then
        { c1 with aqi_pm25 := e.reading.healthAdvice,
                  pm25 := e.reading.averageValue,
                  aqi := toAqi e.reading.averageValue,
                  data_source_1h := e.timeSeriesName }
      else c1
    { c2 with until_ := e.reading.until_ }
  else if e.timeSeriesName = "24HR_AV" then
    let c1 := { c with confidence_24h := e.reading.confidence,
                       total_sample_24h := e.reading.totalSample,
                       aqi_pm25_24h := e.reading.healthAdvice,
                       pm25_24h := e.reading.averageValue,
                       aqi_24h := toAqi e.reading.averageValue }
    if c1.confidence = 0 ∧ c1.total_sample = 0 ∧
       0 < c1.confidence_24h ∧ 0 < c1.total_sample_24h then
      { c1 with aqi_pm25 := c1.aqi_pm25_24h, pm25 := c1.pm25_24h,
                aqi := c1.aqi_24h, data_source_1h := e.timeSeriesName }
    else c1
  else c

/-- `Collector.extract_observation_data` (collector.py): clear
`observation_data`, return early when the `parameters` key is absent, fold the
loop body over the `timeSeriesReadings` entries when present, then (inside the
`parameters` branch, whether or not `timeSeriesReadings` was present) stamp
`last_updated` and rebuild the `observation_data` dictionary. -/
def extract_observation_data (toAqi : ℚ → ℚ) (now : ℤ) (c : Collector)
    (observations : ObservationsData) : Collector :=
  let c0 := { c with observation_data := [] }
  match observations.parameters with
  | none => c0
  | some p =>
    let c1 :=
      (match p.timeSeriesReadings with
      | none => c0
      | some entries => entries.foldl (extract_step toAqi) c0)
    { c1 with
      last_updated := now
      observation_data := [
        ("aqi", .pyFloat c1.aqi), ("aqi_24h", .pyFloat c1.aqi_24h),
        ("aqi_pm25", .pyStr c1.aqi_pm25), ("aqi_pm25_24h", .pyStr c1.aqi_pm25_24h),
        ("pm25", .pyFloat c1.pm25), ("pm25_24h", .pyFloat c1.pm25_24h),
        ("confidence", .pyFloat c1.confidence),
        ("confidence_24h", .pyFloat c1.confidence_24h),
        ("data_source", .pyStr c1.data_source_1h),
        ("total_samples", .pyFloat c1.total_sample),
        ("total_samples_24h", .pyFloat c1.total_sample_24h),
        ("until", .pyStr c1.until_)] }

/-- Claim C5 is false on the code: a payload with one well-formed `1HR_AV`
entry whose confidence and sample count are zero leaves the hourly
concentration at its bootstrap value instead of copying `averageValue` (42). -/
theorem extract_ignores_zero_confidence_average :
    (extract_observation_data (fun _ => 0) 100
      (init_collector "key" "1.0" "site" 0 0)
      ⟨some ⟨some [⟨"1HR_AV", ⟨0, 0, "Good", 42, "u"⟩⟩]⟩⟩).pm25 ≠ 42 := by
  decide

theorem foldl_no_1hr_preserves (toAqi : ℚ → ℚ) :
    ∀ (l : List TimeSeriesEntry) (c : Collector),
      c.confidence ≠ 0 →
      (∀ x ∈ l, x.timeSeriesName ≠ "1HR_AV") →
      (l.foldl (extract_step toAqi) c).pm25 = c.pm25 ∧
      (l.foldl (extract_step toAqi) c).confidence = c.confidence := by
  intro l
  induction l with
  | nil => intro c hc _; exact ⟨rfl, rfl⟩
  | cons e t ih =>
    intro c hc hall
    have hne : e.timeSeriesName ≠ "1HR_AV" := hall e (by simp)
    have hstep : (extract_step toAqi c e).pm25 = c.pm25 ∧
                 (extract_step toAqi c e).confidence = c.confidence := by
      by_cases h24 : e.timeSeriesName = "24HR_AV"
      · constructor <;> simp [extract_step, hne, h24, hc]
      · constructor <;> simp [extract_step, hne, h24]
    have hrest := ih (extract_step toAqi c e)
      (by rw [hstep.2]; exact hc) (fun x hx => hall x (by simp [hx]))
    simp only [List.foldl_cons]
    exact ⟨hrest.1.trans hstep.1, hrest.2.trans hstep.2⟩

/-- Claim C5 amended: the hourly concentration equals the `averageValue` of
the payload's last `1HR_AV` entry exactly (no rounding or conversion),
provided that entry's `confidence` and `totalSample` are both positive; with
zero confidence/sample the entry's value is not copied (see the
counterexample). -/
theorem extract_1hr_average_exact (toAqi : ℚ → ℚ) (now : ℤ) (c : Collector)
    (pre post : List TimeSeriesEntry) (e : TimeSeriesEntry)
    (h1 : e.timeSeriesName = "1HR_AV")
    (hc : 0 < e.reading.confidence) (hs : 0 < e.reading.totalSample)
    (hpost : ∀ x ∈ post, x.timeSeriesName ≠ "1HR_AV") :
    (extract_observation_data toAqi now c ⟨some ⟨some (pre ++ e :: post)⟩⟩).pm25 =
      e.reading.averageValue := by
  have hstep : ∀ cp : Collector,
      (extract_step toAqi cp e).pm25 = e.reading.averageValue ∧
      (extract_step toAqi cp e).confidence = e.reading.confidence := by
    intro cp
    constructor <;> simp [extract_step, h1, hc, hs]
  have hmid := hstep (pre.foldl (extract_step toAqi)
    { c with observation_data := [] })
  have hpres := foldl_no_1hr_preserves toAqi post
    (extract_step toAqi (pre.foldl (extract_step toAqi)
      { c with observation_data := [] }) e)
    (by rw [hmid.2]; exact ne_of_gt hc) hpost
  simp only [extract_observation_data, List.foldl_append, List.foldl_cons]
  exact hpres.1.trans hmid.1

theorem extract_1hr_average_exact_witness :
    (extract_observation_data (fun q => q) 100
      (init_collector "key" "1.0" "site" 0 0)
      ⟨some ⟨some ([] ++ ⟨"1HR_AV", ⟨1, 20, "Good", 42, "u"⟩⟩ ::
        [⟨"24HR_AV", ⟨1, 480, "Fair", 9, "v"⟩⟩])⟩⟩).pm25 = 42 :=
  extract_1hr_average_exact (fun q => q) 100
    (init_collector "key" "1.0" "site" 0 0)
    [] [⟨"24HR_AV", ⟨1, 480, "Fair", 9, "v"⟩⟩]
    ⟨"1HR_AV", ⟨1, 20, "Good", 42, "u"⟩⟩
    rfl (by norm_num) (by norm_num) (by decide)

/-- Claim C6 is false on the code: with the hourly confidence and sample count
both zero, the 24-hour substitution still does not happen when the 24-hour
reading's own confidence and sample count are zero too, so the hourly fields
(concentration 0, advice `""`) differ from the 24-hour ones (7, `"Good"`). -/
theorem extract_zero_conf_no_fallback_when_24h_zero :
    ¬ (((extract_observation_data (fun _ => 0) 100
          (init_collector "key" "1.0" "site" 0 0)
          ⟨some ⟨some [⟨"1HR_AV", ⟨0, 0, "Poor", 5, "u"⟩⟩,
                       ⟨"24HR_AV", ⟨0, 0, "Good", 7, "v"⟩⟩]⟩⟩).pm25 =
        (extract_observation_data (fun _ => 0) 100
          (init_collector "key" "1.0" "site" 0 0)
          ⟨some ⟨some [⟨"1HR_AV", ⟨0, 0, "Poor", 5, "u"⟩⟩,
                       ⟨"24HR_AV", ⟨0, 0, "Good", 7, "v"⟩⟩]⟩⟩).pm25_24h) ∧
       ((extract_observation_data (fun _ => 0) 100
          (init_collector "key" "1.0" "site" 0 0)
          ⟨some ⟨some [⟨"1HR_AV", ⟨0, 0, "Poor", 5, "u"⟩⟩,
                       ⟨"24HR_AV", ⟨0, 0, "Good", 7, "v"⟩⟩]⟩⟩).aqi_pm25 =
        (extract_observation_data (fun _ => 0) 100
          (init_collector "key" "1.0" "site" 0 0)
          ⟨some ⟨some [⟨"1HR_AV", ⟨0, 0, "Poor", 5, "u"⟩⟩,
                       ⟨"24HR_AV", ⟨0, 0, "Good", 7, "v"⟩⟩]⟩⟩).aqi_pm25_24h)) := by
  decide

/-- Claim C6 amended: for a payload consisting of a `1HR_AV` entry with zero
confidence and sample count followed by a `24HR_AV` entry whose confidence and
sample count are both positive, extraction leaves the hourly advice,
concentration and index equal to the 24-hour reading's values. -/
theorem extract_zero_confidence_falls_back (toAqi : ℚ → ℚ) (now : ℤ)
    (c : Collector) (e1 e24 : TimeSeriesEntry)
    (h1 : e1.timeSeriesName = "1HR_AV")
    (hc1 : e1.reading.confidence = 0) (hs1 : e1.reading.totalSample = 0)
    (h2 : e24.timeSeriesName = "24HR_AV")
    (hc2 : 0 < e24.reading.confidence) (hs2 : 0 < e24.reading.totalSample) :
    (extract_observation_data toAqi now c ⟨some ⟨some [e1, e24]⟩⟩).pm25 =
      (extract_observation_data toAqi now c ⟨some ⟨some [e1, e24]⟩⟩).pm25_24h ∧
    (extract_observation_data toAqi now c ⟨some ⟨some [e1, e24]⟩⟩).aqi_pm25 =
      (extract_observation_data toAqi now c ⟨some ⟨some [e1, e24]⟩⟩).aqi_pm25_24h ∧
    (extract_observation_data toAqi now c ⟨some ⟨some [e1, e24]⟩⟩).aqi =
      (extract_observation_data toAqi now c ⟨some ⟨some [e1, e24]⟩⟩).aqi_24h := by
  refine ⟨?_, ?_, ?_⟩ <;>
    simp [extract_observation_data, extract_step, h1, h2, hc1, hs1, hc2, hs2]

theorem extract_zero_confidence_falls_back_witness :
    (extract_observation_data (fun _ => 3) 100
      (init_collector "key" "1.0" "site" 0 0)
      ⟨some ⟨some [⟨"1HR_AV", ⟨0, 0, "Poor", 5, "u"⟩⟩,
                   ⟨"24HR_AV", ⟨1, 480, "Good", 7, "v"⟩⟩]⟩⟩).pm25 =
    (extract_observation_data (fun _ => 3) 100
      (init_collector "key" "1.0" "site" 0 0)
      ⟨some ⟨some [⟨"1HR_AV", ⟨0, 0, "Poor", 5, "u"⟩⟩,
                   ⟨"24HR_AV", ⟨1, 480, "Good", 7, "v"⟩⟩]⟩⟩).pm25_24h :=
  (extract_zero_confidence_falls_back (fun _ => 3) 100
    (init_collector "key" "1.0" "site" 0 0)
    ⟨"1HR_AV", ⟨0, 0, "Poor", 5, "u"⟩⟩ ⟨"24HR_AV", ⟨1, 480, "Good", 7, "v"⟩⟩
    rfl rfl rfl rfl (by norm_num) (by norm_num)).1

/-- The mutable `EPAApi` state touched by a fetch cycle: the `_data`
dictionary and the `_loaded_data` flag. -/
structure EpaState where
  data : EpaData
  loaded_data : Bool
  deriving Repr, DecidableEq

/-- One series entry of the raw payload as read by `EPAApi.__http_data_call`:
the `timeSeriesName` tag and the `until` (parsed to an instant),
`healthAdvice` and `averageValue` keys of its readings. -/
structure EpaSeriesEntry where
  timeSeriesName : String
  until_ : ℤ
  healthAdvice : String
  averageValue : ℚ
  deriving Repr, DecidableEq

/-- A fetched JSON body for `__http_data_call`: its `parameters` key, `none`
when the key is absent or not a list, which makes the function raise the
`TypeError` it catches itself. -/
structure EpaPayload where
  parameters : Option (List EpaSeriesEntry)
  deriving Repr, DecidableEq

/-- `EPAApi.__http_data_call` (epaapi.py): when `__fetch_data` returned `None`
or the payload has no `parameters` list, it returns `False` having mutated
nothing (every exception is raised before the single mutating statement). An
empty `parameters` list also fails: the loop body never runs, so the locals
read by the subsequent `new_data.append` are unbound and the resulting
`NameError` is caught. With at least one entry it returns `True` after
refreshing only the `'site'` slot of `_data`. The AQI-history maintenance
applied to that slot (dictionary rebuild, 730-day filter and sort) is
abstracted as the `siteUpdate` argument, since no claim inspects the
history's contents. -/
def http_data_call (siteUpdate : PyVal → PyVal) (fetched : Option EpaPayload)
    (s : EpaState) : Bool × EpaState :=
  match fetched with
  | none => (false, s)
  | some p =>
    match p.parameters with
    | none => (false, s)
    | some [] => (false, s)
    | some (_ :: _) =>
      (true, { s with data := { s.data with site := siteUpdate s.data.site } })

/-- `ConnectionOptions` (epaapi.py): the shipped options dataclass — fields
`api_key`, `site_id`, `host`, `file_path` and `tz` (the timezone, modelled as
a UTC offset). It has no `auto_update` field, so `get_quality_update`'s read
of `self.options.auto_update` raises `AttributeError`. -/
structure ConnectionOptions where
  api_key : String
  site_id : String
  host : String
  file_path : String
  tz : ℤ
  deriving Repr, DecidableEq

/-- The status string built by `get_quality_update`'s own exception handler
when reading the missing `options.auto_update` raises `AttributeError`. -/
def attribute_error_status : String :=
  "Exception in get_quality_update(): 'ConnectionOptions' object has no attribute 'auto_update' - Air Quality failed to fetch"

/-- `EPAApi.get_quality_update` (epaapi.py): when the HTTP call fails, it
returns the failure status with `_data` and the cache untouched. When the
HTTP call succeeds, it writes `last_updated` (current instant) and
`last_attempt` (the ISO string captured at entry) into `_data`, and the next
statement reads `self.options.auto_update` — an attribute the shipped
`ConnectionOptions` does not have — so `AttributeError` is raised and caught
by the function's own handler: `auto_updated`, `version` and `_loaded_data`
are never set, the cache is never serialised, and the returned status reports
the exception, with the two writes left in place. -/
def get_quality_update (siteUpdate : PyVal → PyVal)
    (options : ConnectionOptions) (now : ℤ) (fetched : Option EpaPayload)
    (s : EpaState) (file : Option (List (String × JVal))) :
    String × EpaState × Option (List (String × JVal)) :=
  let result := http_data_call siteUpdate fetched s
  if result.1 then
    let d := { result.2.data with
      last_updated := PyVal.pyDatetime now
      last_attempt := PyVal.pyStr (isoformat now) }
    (attribute_error_status, { result.2 with data := d }, file)
  else
    ("Air Quality failed to fetch", result.2, file)

/-- Observable outcome of one coordinator fetch cycle: final API state, cache
file, how many listener-notification rounds were sent, and whether an uncaught
exception escaped `__quality_update` into the surrounding task. -/
structure CycleResult where
  state : EpaState
  file : Option (List (String × JVal))
  notifications : ℕ
  raised : Bool
  deriving Repr, DecidableEq

/-- `EPAVicUpdateCoordinator.__quality_update` (coordinator.py): it calls
`self.epa.get_quality_update(do_past=False, force=force, next_update=...)`,
but the shipped `get_quality_update` accepts no parameters, so Python raises
`TypeError` at the call site — before any fetch and before the notification
lines (`_data_updated = True; await self.update_integration_listeners();
_data_updated = False`). Every cycle therefore ends with the API state, the
cache file and the listeners untouched and the exception escaping into the
surrounding task. -/
def quality_update (s : EpaState) (file : Option (List (String × JVal))) :
    CycleResult :=
  { state := s, file := file, notifications := 0, raised := true }

/-- An API state with a populated cache history, used as the pre-attempt
snapshot in the claim-C1 instances. -/
def epa_state_example : EpaState :=
  ⟨⟨.pyStr "history", .pyDatetime 50, .pyStr "prev", false, 1⟩, true⟩

/-- Claim C1 is false on the code: a fetch cycle can fail with the in-memory
data already mutated. Entering `get_quality_update` with a succeeding HTTP
fetch writes `last_updated` and `last_attempt` and only then fails with
`AttributeError` on the missing `options.auto_update`; the returned status
reports a failure, yet `last_updated` no longer equals its pre-attempt
value. -/
theorem failing_cycle_mutates_last_updated :
    (get_quality_update id ⟨"k", "s", "h", "f", 600⟩ 100
        (some ⟨some [⟨"1HR_AV", 10, "Good", 5⟩]⟩) epa_state_example
        (some [("k", .jnum 1)])).1 ≠ "" ∧
    (get_quality_update id ⟨"k", "s", "h", "f", 600⟩ 100
        (some ⟨some [⟨"1HR_AV", 10, "Good", 5⟩]⟩) epa_state_example
        (some [("k", .jnum 1)])).2.1.data.last_updated ≠
      epa_state_example.data.last_updated := by
  decide

/-- Claim C1 amended: when the HTTP fetch itself fails — `__fetch_data`
returning `None` (HTTP 404, exhausted retries, transport error, timeout) or a
payload without a usable `parameters` list — `get_quality_update` leaves the
in-memory `_data` and the cache file exactly as they were and reports the
failure; and no coordinator cycle ever sends a listener notification, because
`__quality_update` raises `TypeError` at its `get_quality_update(...)` call
before the notification lines, leaving state and cache untouched there too.
A cycle whose fetch succeeds, by contrast, fails only after mutating
`last_updated` and `last_attempt` — see the counterexample. -/
theorem fetch_failure_untouched_and_never_notifies
    (siteUpdate : PyVal → PyVal) (options : ConnectionOptions) (now : ℤ)
    (s : EpaState) (file : Option (List (String × JVal))) (p : EpaPayload)
    (hp : p.parameters = none ∨ p.parameters = some []) :
    get_quality_update siteUpdate options now none s file =
      ("Air Quality failed to fetch", s, file) ∧
    get_quality_update siteUpdate options now (some p) s file =
      ("Air Quality failed to fetch", s, file) ∧
    quality_update s file = ⟨s, file, 0, true⟩ := by
  refine ⟨rfl, ?_, rfl⟩
  rcases hp with hp | hp <;>
    simp [get_quality_update, http_data_call, hp]

theorem fetch_failure_untouched_and_never_notifies_witness :
    get_quality_update id ⟨"k", "s", "h", "f", 600⟩ 100 none
      epa_state_example none =
      ("Air Quality failed to fetch", epa_state_example, none) ∧
    get_quality_update id ⟨"k", "s", "h", "f", 600⟩ 100 (some ⟨none⟩)
      epa_state_example none =
      ("Air Quality failed to fetch", epa_state_example, none) ∧
    quality_update epa_state_example none =
      ⟨epa_state_example, none, 0, true⟩ :=
  fetch_failure_untouched_and_never_notifies id ⟨"k", "s", "h", "f", 600⟩ 100
    epa_state_example none ⟨none⟩ (Or.inl rfl)
